import Mathlib

/-!
Verification of the `pyexeggutor` utility library (`src/pyexeggutor/__init__.py`)
against its natural-language specification.

The Python source is shallowly embedded: pure helpers become Lean functions,
the filesystem is an explicit map from paths to file sizes (`Option`: `none`
means the path does not exist), the child process's observable behaviour is an
explicit `ProcessResult` record, and exceptions become `Except` / `Option`
error values.  Python floats that arise here are modelled by `ℚ`: every
operation the code performs on them (division by powers of two, comparison)
is exact in binary floating point for double-representable inputs, so the
rational model agrees with the float semantics on all inputs of interest.
-/

/-- Python exceptions raised by the code under study. -/
inductive PyError where
  | fileNotFound (path : String)
  | calledProcessError (returncode : Int) (cmd : String)
  | valueError (msg : String)
  | attributeError (msg : String)
deriving DecidableEq, Repr

/-- Result of `format_bytes`: a rendered string when `return_units` is true,
otherwise the bare number (Python returns the float itself). -/
inductive FBResult where
  | str (s : String)
  | num (q : ℚ)
deriving DecidableEq, Repr

/-- Zero-pad a natural number to two digits (Python `f"{n:02}"` for `n < 100`). -/
def pad2 (n : ℕ) : String :=
  if n < 10 then "0" ++ toString n else toString n

/-- Python `f"{i:02}"` for an integer: pad with one zero when the rendered
form has a single character. -/
def padInt2 (i : ℤ) : String :=
  let s := toString i
  if s.length < 2 then "0" ++ s else s

/-- Round `a / b` (with `b > 0`) to the nearest integer, ties to even:
the rounding C's `%.2f` applies to the exact value of a double. -/
def roundHalfEvenNat (a b : ℕ) : ℕ :=
  let d := a / b
  let r := a % b
  if 2 * r < b then d
  else if b < 2 * r then d + 1
  else if d % 2 = 0 then d else d + 1

/-- Model of Python `f"{q:.2f}"`.  Exact for every rational that is exactly
representable as a double, which covers every value produced inside
`format_bytes` on double-representable inputs (its divisors are powers of two). -/
def renderFixed2 (q : ℚ) : String :=
  if q < 0 then
    let n := roundHalfEvenNat ((-q).num.toNat * 100) (-q).den
    "-" ++ toString (n / 100) ++ "." ++ pad2 (n % 100)
  else
    let n := roundHalfEvenNat (q.num.toNat * 100) q.den
    toString (n / 100) ++ "." ++ pad2 (n % 100)

/-- `format_with_unit` closure inside `format_bytes`: render `f"{size:.2f} {unit_name}"`
when `return_units`, otherwise return the number. -/
def format_with_unit (return_units : Bool) (size : ℚ) (unit_name : String) : FBResult :=
  if return_units then FBResult.str (renderFixed2 size ++ " " ++ unit_name)
  else FBResult.num size

/-- Body of `format_bytes` after `unit = unit.lower()` (the source lowers the
unit once more inside the non-auto branch; `toLower` is idempotent, so one
lowering is faithful). -/
def format_bytes_lowered (B : ℚ) (u : String) (return_units : Bool) :
    Except PyError FBResult :=
  let KB : ℚ := 1024
  let MB : ℚ := KB ^ 2
  let GB : ℚ := KB ^ 3
  let TB : ℚ := KB ^ 4
  if u ≠ "auto" then
    if u = "b" then Except.ok (format_with_unit return_units B "B")
    else if u = "kb" then Except.ok (format_with_unit return_units (B / KB) "KB")
    else if u = "mb" then Except.ok (format_with_unit return_units (B / MB) "MB")
    else if u = "gb" then Except.ok (format_with_unit return_units (B / GB) "GB")
    else if u = "tb" then Except.ok (format_with_unit return_units (B / TB) "TB")
    else Except.error (PyError.valueError ("Unknown unit: " ++ u))
  else
    if B < KB then Except.ok (format_with_unit return_units B "B")
    else if KB ≤ B ∧ B < MB then Except.ok (format_with_unit return_units (B / KB) "KB")
    else if MB ≤ B ∧ B < GB then Except.ok (format_with_unit return_units (B / MB) "MB")
    else if GB ≤ B ∧ B < TB then Except.ok (format_with_unit return_units (B / GB) "GB")
    else Except.ok (format_with_unit return_units (B / TB) "TB")

/-- Python `str.lower()`.  Mapped characterwise over the string data; agrees
with Python on every ASCII string (the only strings `format_bytes` compares
against are ASCII unit names). -/
def pyLower (s : String) : String := ⟨s.data.map Char.toLower⟩

/-- `format_bytes(B, unit="auto", return_units=True)` from the source. -/
def format_bytes (B : ℚ) (unit : String) (return_units : Bool) :
    Except PyError FBResult :=
  format_bytes_lowered B (pyLower unit) return_units

/-- Python `int()` applied to a number: truncation toward zero. -/
def pyint (q : ℚ) : ℤ :=
  if q < 0 then -(((-q).num.toNat / (-q).den : ℕ) : ℤ)
  else ((q.num.toNat / q.den : ℕ) : ℤ)

/-- `format_duration`: `divmod(int(duration), 3600)` then `divmod(remainder, 60)`,
rendered `f"{hours:02}:{minutes:02}:{seconds:02}"`.  Python `divmod` is floor
division; for the positive divisors 3600 and 60 this coincides with Euclidean
division, so `Int.ediv`/`Int.emod` model it exactly. -/
def format_duration (duration : ℚ) : String :=
  let n := pyint duration
  let hours := n / 3600
  let remainder := n % 3600
  let minutes := remainder / 60
  let seconds := remainder % 60
  padInt2 hours ++ ":" ++ padInt2 minutes ++ ":" ++ padInt2 seconds

/-- A fragment of the `command` constructor argument.  The source applies
Python `str` to each fragment; the claims only exercise strings and `None`. -/
inductive Fragment where
  | str (s : String)
  | none
deriving DecidableEq, Repr

/-- Python `str` applied to a fragment: `str(None)` is the text `"None"`. -/
def Fragment.toPyStr : Fragment → String
  | Fragment.str s => s
  | Fragment.none => "None"

/-- The `command` argument of `RunShellCommand.__init__`: either a plain
string or a sequence of fragments. -/
inductive CommandArg where
  | ofStr (s : String)
  | ofList (l : List Fragment)

/-- The filesystem, as the command runner observes it: each existing path has
a size in bytes; `none` means the path does not exist. -/
def FS : Type := String → Option ℕ

/-- `check_file(filepath, empty_ok, minimum_filesize)`: raise `FileNotFoundError`
when the path does not exist, or (unless `empty_ok`) when its size is below
`minimum_filesize`. -/
def check_file (fs : FS) (filepath : String) (empty_ok : Bool)
    (minimum_filesize : ℕ) : Except PyError Unit :=
  match fs filepath with
  | Option.none => Except.error (PyError.fileNotFound filepath)
  | Option.some size =>
      if empty_ok then Except.ok ()
      else if size < minimum_filesize then
        Except.error (PyError.fileNotFound filepath)
      else Except.ok ()

/-- The validation loops in `run` and `check_status`:
`for filepath in paths: check_file(filepath, empty_ok=False)` with the
default `minimum_filesize=1`; the first failure propagates. -/
def checkFiles (fs : FS) : List String → Except PyError Unit
  | [] => Except.ok ()
  | p :: ps =>
    match check_file fs p false 1 with
    | Except.error e => Except.error e
    | Except.ok _ => checkFiles fs ps

/-- Python `x if x else list()` for an optional list argument (an empty list
is falsy and is replaced by a fresh empty list of the same value). -/
def pyListOrEmpty : Option (List String) → List String
  | Option.some l => l
  | Option.none => []

/-- Python string interpolation of an optional value: `None` renders as `"None"`. -/
def pyStrOfOpt : Option String → String
  | Option.some s => s
  | Option.none => "None"

/-- `os.path.join` for the two-argument calls made by `dump` (posixpath
rules: an absolute second part wins; otherwise join with a slash unless the
first part is empty or already ends with one). -/
def path_join (a b : String) : String :=
  if b.data.head? = Option.some '/' then b
  else if a.isEmpty then b
  else if a.data.getLast? = Option.some '/' then a ++ b
  else a ++ "/" ++ b

/-- The state of a `RunShellCommand` instance.  Fields suffixed `_` are the
attributes `run` creates; before `run` they are absent, modelled as `none`. -/
structure RunShellCommand where
  command : String
  name : Option String
  shell_executable : String
  validate_input_filepaths : List String
  validate_output_filepaths : List String
  executed : Bool
  redirect_stdout : Option String
  redirect_stderr : Option String
  stdout_ : Option String
  stderr_ : Option String
  returncode_ : Option Int
  memory_usage_ : Option (List ℚ)
  duration_ : Option ℚ
  peak_memory_ : Option ℚ
deriving DecidableEq, Repr

/-- `RunShellCommand.__init__`.  A plain-string command is wrapped in a
one-element list; the fragments then pass through
`" ".join(list(filter(bool, map(str, command))))`.  Note the source
(line 370) assigns `validate_input_filepaths` to the
`validate_output_filepaths` field as well, ignoring the
`validate_output_filepaths` argument. -/
def RunShellCommand.init (command : CommandArg) (name : Option String)
    (shell_executable : String) (validate_input_filepaths : Option (List String))
    (validate_output_filepaths : Option (List String)) : RunShellCommand :=
  let frags : List Fragment :=
    match command with
    | CommandArg.ofStr s => [Fragment.str s]
    | CommandArg.ofList l => l
  { command := String.intercalate " "
      (((frags.map Fragment.toPyStr)).filter (fun s => !s.isEmpty)),
    name := name,
    shell_executable := shell_executable,
    validate_input_filepaths := pyListOrEmpty validate_input_filepaths,
    validate_output_filepaths := pyListOrEmpty validate_input_filepaths,
    executed := false,
    redirect_stdout := Option.none, redirect_stderr := Option.none,
    stdout_ := Option.none, stderr_ := Option.none, returncode_ := Option.none,
    memory_usage_ := Option.none, duration_ := Option.none,
    peak_memory_ := Option.none }

/-- What the external world supplies to one `run` call: the child's captured
streams and return code, the memory samples collected by `memory_usage`, and
the measured wall-clock duration. -/
structure ProcessResult where
  stdout : String
  stderr : String
  returncode : Int
  memory_usage : List ℚ
  duration : ℚ

/-- `RunShellCommand.run` with the default `stdout=PIPE, stderr=PIPE`
arguments.  The method first sets `redirect_stdout`/`redirect_stderr` to
`None`, then validates the input paths (`check_file` with `empty_ok=False`),
and only if they all pass does it spawn the child and record the captured
fields; `executed = True` is the last assignment, after
`peak_memory_ = max(memory_usage_)` (which raises on an empty sample list).
The pair's second component is the raised exception, if any. -/
def RunShellCommand.run (self : RunShellCommand) (fs : FS) (pr : ProcessResult) :
    RunShellCommand × Option PyError :=
  let s0 : RunShellCommand :=
    { self with redirect_stdout := Option.none, redirect_stderr := Option.none }
  match checkFiles fs s0.validate_input_filepaths with
  | Except.error e => (s0, Option.some e)
  | Except.ok _ =>
    let s1 : RunShellCommand :=
      { s0 with
        stdout_ := Option.some pr.stdout,
        stderr_ := Option.some pr.stderr,
        returncode_ := Option.some pr.returncode,
        memory_usage_ := Option.some pr.memory_usage,
        duration_ := Option.some pr.duration }
    match pr.memory_usage with
    | [] => (s1, Option.some (PyError.valueError "max() arg is an empty sequence"))
    | m :: ms =>
      ({ s1 with peak_memory_ := Option.some (ms.foldl max m), executed := true },
       Option.none)

/-- The `cmd` string carried by the `CalledProcessError` that `check_status`
raises: `"\n".join([f"Command Failed: {command}", f"return code: {rc}",
f"stderr:\n{stderr}"])`. -/
def commandFailedMessage (command : String) (rc : Int) (stderr : String) : String :=
  String.intercalate "\n"
    ["Command Failed: " ++ command,
     "return code: " ++ toString rc,
     "stderr:\n" ++ stderr]

/-- `RunShellCommand.check_status`.  The method reads but never assigns any
attribute, so the returned state is the input state; the second component is
the outcome (the success message printed to stderr, or the raised error).
Accessing `returncode_` before `run` raises `AttributeError`. -/
def RunShellCommand.check_status (self : RunShellCommand) (fs : FS) :
    RunShellCommand × Except PyError String :=
  match self.returncode_ with
  | Option.none => (self, Except.error (PyError.attributeError "returncode_"))
  | Option.some rc =>
    if rc ≠ 0 then
      (self, Except.error (PyError.calledProcessError rc
        (commandFailedMessage self.command rc (pyStrOfOpt self.stderr_))))
    else
      match checkFiles fs self.validate_output_filepaths with
      | Except.error e => (self, Except.error e)
      | Except.ok _ => (self, Except.ok ("Command Successful: " ++ self.command))

/-- `RunShellCommand.dump(output_directory)`: writes `{name}.o`, `{name}.e`,
`{name}.returncode` (extensions `o`/`e`/`returncode` select no compression in
`open_file_writer`).  Each write is `print(value, file=f)`, which renders the
value with `str` and appends one newline.  The method assigns no attribute, so
the returned state is the input state; the second component lists the
`(path, content)` pairs written.  On a never-run instance the attribute
access raises (modelled without the partially created files). -/
def RunShellCommand.dump (self : RunShellCommand) (output_directory : String) :
    RunShellCommand × Except PyError (List (String × String)) :=
  match self.stdout_, self.stderr_, self.returncode_ with
  | Option.some so, Option.some se, Option.some rc =>
    (self, Except.ok
      [(path_join output_directory (pyStrOfOpt self.name ++ ".o"), so ++ "\n"),
       (path_join output_directory (pyStrOfOpt self.name ++ ".e"), se ++ "\n"),
       (path_join output_directory (pyStrOfOpt self.name ++ ".returncode"),
        toString rc ++ "\n")])
  | _, _, _ =>
    (self, Except.error (PyError.attributeError "stdout_/stderr_/returncode_"))

/-- Modelled from the spec's words for claim C3 only: "the fragments joined
with single spaces after all falsy fragments (empty strings and None) have
been dropped".  Compared against the constructor's actual join. -/
def specCommandJoin (frags : List Fragment) : String :=
  String.intercalate " "
    ((frags.filter (fun f =>
        match f with
        | Fragment.none => false
        | Fragment.str s => !s.isEmpty)).map Fragment.toPyStr)

/-- The 1024-based factor named by an explicit (already lowercased) unit
argument of `format_bytes`; `none` for unrecognized units. -/
def unitFactor (u : String) : Option ℚ :=
  if u = "b" then Option.some 1
  else if u = "kb" then Option.some 1024
  else if u = "mb" then Option.some (1024 ^ 2)
  else if u = "gb" then Option.some (1024 ^ 3)
  else if u = "tb" then Option.some (1024 ^ 4)
  else Option.none

/-- The unit suffix for the `k`-th 1024-based interval. -/
def unitNameOfIndex : ℕ → String
  | 0 => "B"
  | 1 => "KB"
  | 2 => "MB"
  | 3 => "GB"
  | _ => "TB"

deriving instance DecidableEq for Except

section RatEval

/- The standard library marks rational arithmetic irreducible; unsealing it
locally lets `decide` evaluate the embedded functions on concrete inputs. -/
attribute [local semireducible] Rat.inv Rat.mul Rat.sub Rat.add

/-- `check_file` either succeeds or raises `FileNotFoundError` for its path. -/
theorem check_file_shape (fs : FS) (p : String) (eo : Bool) (m : ℕ) :
    check_file fs p eo m = Except.ok () ∨
    check_file fs p eo m = Except.error (PyError.fileNotFound p) := by
  unfold check_file
  cases hfs : fs p with
  | none => exact Or.inr rfl
  | some size =>
    cases eo with
    | true => exact Or.inl rfl
    | false =>
      by_cases hs : size < m
      · exact Or.inr (if_pos hs)
      · exact Or.inl (if_neg hs)

/-- A path that is missing or below the minimum size makes `check_file`
(with `empty_ok=False`, `minimum_filesize=1`) raise `FileNotFoundError`. -/
theorem check_file_bad (fs : FS) (p : String)
    (h : fs p = Option.none ∨ ∃ sz, fs p = Option.some sz ∧ sz < 1) :
    check_file fs p false 1 = Except.error (PyError.fileNotFound p) := by
  unfold check_file
  rcases h with h | ⟨sz, h, hsz⟩
  · rw [h]
  · rw [h]
    simp [hsz]

/-- The validation loop either succeeds or raises `FileNotFoundError` for
some path. -/
theorem checkFiles_shape (fs : FS) (l : List String) :
    checkFiles fs l = Except.ok () ∨
    ∃ q, checkFiles fs l = Except.error (PyError.fileNotFound q) := by
  induction l with
  | nil => exact Or.inl rfl
  | cons a t ih =>
    rcases check_file_shape fs a false 1 with h | h
    · rcases ih with h2 | ⟨q, h2⟩
      · exact Or.inl (by simp [checkFiles, h, h2])
      · exact Or.inr ⟨q, by simp [checkFiles, h, h2]⟩
    · exact Or.inr ⟨a, by simp [checkFiles, h]⟩

/-- If some path in the list is missing or empty, the validation loop raises
`FileNotFoundError`. -/
theorem checkFiles_err (fs : FS) (l : List String)
    (hbad : ∃ p ∈ l, fs p = Option.none ∨ ∃ sz, fs p = Option.some sz ∧ sz < 1) :
    ∃ q, checkFiles fs l = Except.error (PyError.fileNotFound q) := by
  induction l with
  | nil =>
    rcases hbad with ⟨p, hp, _⟩
    cases hp
  | cons a t ih =>
    rcases check_file_shape fs a false 1 with h | h
    · rcases hbad with ⟨p, hp, hb⟩
      rcases List.mem_cons.mp hp with rfl | hpt
      · rw [check_file_bad fs p hb] at h
        exact absurd h (by simp)
      · rcases ih ⟨p, hpt, hb⟩ with ⟨q, hq⟩
        exact ⟨q, by simp [checkFiles, h, hq]⟩
    · exact ⟨a, by simp [checkFiles, h]⟩

/-- C1: the claim says that after a return-code-0 run, `check_status()`
raises `FileNotFound` when the `validate_output_filepaths` constructor
argument contains a missing path.  The code does not: line 370 of the source
stores `validate_input_filepaths` in the `validate_output_filepaths` field,
so with no input paths and the missing output path `"/missing"` (absent from
the filesystem, which here has no files at all) `check_status()` validates
nothing and reports success. -/
theorem claim_C1_eval :
    (((RunShellCommand.init (CommandArg.ofStr "true") (Option.some "x") "/bin/bash"
        Option.none (Option.some ["/missing"])).run (fun _ => Option.none)
        ⟨"", "", 0, [37], 1⟩).1.returncode_ = Option.some 0)
    ∧ ((((RunShellCommand.init (CommandArg.ofStr "true") (Option.some "x") "/bin/bash"
        Option.none (Option.some ["/missing"])).run (fun _ => Option.none)
        ⟨"", "", 0, [37], 1⟩).1.check_status (fun _ => Option.none)).2
      = Except.ok "Command Successful: true") :=
  ⟨by decide, by decide⟩

/-- C2: the constructed `validate_output_filepaths` field always equals the
`validate_input_filepaths` argument (empty list when that argument is absent),
and the `validate_output_filepaths` argument never influences the constructed
state. -/
theorem claim_C2 (c : CommandArg) (n : Option String) (sh : String)
    (vi vo : Option (List String)) :
    (RunShellCommand.init c n sh vi vo).validate_output_filepaths = pyListOrEmpty vi
    ∧ ∀ vo', RunShellCommand.init c n sh vi vo = RunShellCommand.init c n sh vi vo' :=
  ⟨rfl, fun _ => rfl⟩

/-- C3 counterexample: the claim says falsy fragments (empty strings and
`None`) are dropped before joining, but the source converts each fragment to
a string first, so a `None` fragment becomes the kept text `"None"`:
`["echo", None]` yields the command `"echo None"`, not `"echo"`. -/
theorem claim_C3_cex :
    (RunShellCommand.init (CommandArg.ofList [Fragment.str "echo", Fragment.none])
        Option.none "/bin/bash" Option.none Option.none).command = "echo None"
    ∧ specCommandJoin [Fragment.str "echo", Fragment.none] = "echo"
    ∧ (RunShellCommand.init (CommandArg.ofList [Fragment.str "echo", Fragment.none])
        Option.none "/bin/bash" Option.none Option.none).command
      ≠ specCommandJoin [Fragment.str "echo", Fragment.none] :=
  ⟨by decide, by decide, by decide⟩

/-- C3 amended: fragments are each converted to their string form (a `None`
fragment becomes the text `"None"`), then empty strings — the only falsy
strings — are dropped and the rest joined with single spaces; a plain string
argument is treated as a one-fragment sequence, and a sequence of nonempty
string fragments is joined verbatim. -/
theorem claim_C3_amended (frags : List Fragment) (n : Option String) (sh : String)
    (vi vo : Option (List String)) :
    (RunShellCommand.init (CommandArg.ofList frags) n sh vi vo).command
      = String.intercalate " "
          ((frags.map Fragment.toPyStr).filter (fun s => !s.isEmpty))
    ∧ (∀ s, (RunShellCommand.init (CommandArg.ofStr s) n sh vi vo).command
        = String.intercalate " " ([s].filter (fun t => !t.isEmpty)))
    ∧ (∀ l : List String, (∀ s ∈ l, ¬s.isEmpty) →
        (RunShellCommand.init (CommandArg.ofList (l.map Fragment.str)) n sh vi vo).command
          = String.intercalate " " l) := by
  refine ⟨rfl, fun s => rfl, fun l hl => ?_⟩
  have hmap : (l.map Fragment.str).map Fragment.toPyStr = l := by
    rw [List.map_map]
    exact List.map_id l
  have hfil : l.filter (fun s => !s.isEmpty) = l := by
    apply List.filter_eq_self.mpr
    intro s hs
    simpa using hl s hs
  show String.intercalate " "
      (((l.map Fragment.str).map Fragment.toPyStr).filter (fun s => !s.isEmpty)) = _
  rw [hmap, hfil]

/-- C3 amended witness: a concrete two-fragment command joins verbatim. -/
theorem claim_C3_amended_witness :
    (∀ s ∈ ["echo", "hi"], ¬s.isEmpty)
    ∧ (RunShellCommand.init
        (CommandArg.ofList (["echo", "hi"].map Fragment.str)) Option.none "/bin/bash"
        Option.none Option.none).command = String.intercalate " " ["echo", "hi"] :=
  ⟨by decide,
   (claim_C3_amended (["echo", "hi"].map Fragment.str) Option.none "/bin/bash"
      Option.none Option.none).2.2 ["echo", "hi"] (by decide)⟩

/-- C4: for an executed instance, `check_status()` raises `CalledProcessError`
carrying the command text, return code and captured stderr exactly when the
recorded return code is non-zero; for return code 0 with all output
validations passing it reports success without raising. -/
theorem claim_C4 (fs : FS) (self : RunShellCommand) (rc : Int) (err : String)
    (h1 : self.returncode_ = Option.some rc) (h2 : self.stderr_ = Option.some err) :
    ((self.check_status fs).2
        = Except.error (PyError.calledProcessError rc
            (commandFailedMessage self.command rc err)) ↔ rc ≠ 0)
    ∧ (rc = 0 → checkFiles fs self.validate_output_filepaths = Except.ok () →
        (self.check_status fs).2
          = Except.ok ("Command Successful: " ++ self.command)) := by
  constructor
  · constructor
    · intro heq hrc0
      rcases checkFiles_shape fs self.validate_output_filepaths with hok | ⟨q, hq⟩
      · simp [RunShellCommand.check_status, h1, hrc0, hok] at heq
      · simp [RunShellCommand.check_status, h1, hrc0, hq] at heq
    · intro hrc
      simp [RunShellCommand.check_status, h1, hrc, h2, pyStrOfOpt]
  · intro hrc0 hout
    simp [RunShellCommand.check_status, h1, hrc0, hout]

/-- C4 witness: a concrete run with return code 1 and stderr `"boom"` makes
`check_status()` raise `CalledProcessError` with that payload. -/
theorem claim_C4_witness :
    ((((RunShellCommand.init (CommandArg.ofStr "false") Option.none "/bin/bash"
        Option.none Option.none).run (fun _ => Option.some 5)
        ⟨"", "boom", 1, [1], 1⟩).1.check_status (fun _ => Option.some 5)).2
      = Except.error (PyError.calledProcessError 1
          (commandFailedMessage "false" 1 "boom"))) := by
  have h := (claim_C4 (fun _ => Option.some 5)
    (((RunShellCommand.init (CommandArg.ofStr "false") Option.none "/bin/bash"
        Option.none Option.none).run (fun _ => Option.some 5)
        ⟨"", "boom", 1, [1], 1⟩).1) 1 "boom" (by decide) (by decide)).1.mpr (by decide)
  exact h.trans (by decide)

/-- C5: when some declared input path is missing or below the minimum size
threshold (default 1 byte), `run()` raises `FileNotFound`; the outcome is
independent of what the child process would have produced (no process side
effects), and `executed` is unchanged. -/
theorem claim_C5 (self : RunShellCommand) (fs : FS) (pr : ProcessResult)
    (hbad : ∃ p ∈ self.validate_input_filepaths,
      fs p = Option.none ∨ ∃ sz, fs p = Option.some sz ∧ sz < 1) :
    (∃ q, (self.run fs pr).2 = Option.some (PyError.fileNotFound q))
    ∧ (∀ pr', self.run fs pr = self.run fs pr')
    ∧ (self.run fs pr).1.executed = self.executed := by
  rcases checkFiles_err fs self.validate_input_filepaths hbad with ⟨q, hq⟩
  refine ⟨⟨q, ?_⟩, fun pr' => ?_, ?_⟩
  · simp [RunShellCommand.run, hq]
  · simp [RunShellCommand.run, hq]
  · simp [RunShellCommand.run, hq]

/-- C5 witness: with a declared input path absent from the filesystem, a
concrete `run()` raises `FileNotFound`. -/
theorem claim_C5_witness :
    ∃ q, ((RunShellCommand.init (CommandArg.ofStr "cat in.txt") Option.none "/bin/bash"
        (Option.some ["in.txt"]) Option.none).run (fun _ => Option.none)
        ⟨"", "", 0, [1], 1⟩).2 = Option.some (PyError.fileNotFound q) :=
  (claim_C5 _ _ _ ⟨"in.txt", by decide, Or.inl rfl⟩).1

/-- C6 counterexample: the claim says each dump file's content equals the
captured text (or the return-code string) itself, but every write goes
through `print`, which appends one newline: for captured stdout `"hello\n"`
the `.o` file holds `"hello\n\n"`, and the `.returncode` file holds `"0\n"`,
not `"0"`. -/
theorem claim_C6_cex :
    ((((RunShellCommand.init (CommandArg.ofStr "echo hello") (Option.some "demo")
        "/bin/bash" Option.none Option.none).run (fun _ => Option.none)
        ⟨"hello\n", "", 0, [37], 1⟩).1.dump "out").2
      = Except.ok
          [("out/demo.o", "hello\n\n"),
           ("out/demo.e", "\n"),
           ("out/demo.returncode", "0\n")])
    ∧ ("hello\n\n" : String) ≠ "hello\n"
    ∧ ("0\n" : String) ≠ "0" :=
  ⟨by decide, by decide, by decide⟩

/-- C6 amended: for an executed instance named `n`, `dump(outputDirectory)`
writes exactly three files — `n.o`, `n.e`, `n.returncode` — whose contents
are the captured stdout text, the captured stderr text, and the string form
of the return code, each followed by the single newline `print` appends; it
persists nothing else. -/
theorem claim_C6_amended (self : RunShellCommand) (dir : String)
    (so se : String) (rc : Int)
    (h1 : self.stdout_ = Option.some so) (h2 : self.stderr_ = Option.some se)
    (h3 : self.returncode_ = Option.some rc) :
    (self.dump dir).2 = Except.ok
      [(path_join dir (pyStrOfOpt self.name ++ ".o"), so ++ "\n"),
       (path_join dir (pyStrOfOpt self.name ++ ".e"), se ++ "\n"),
       (path_join dir (pyStrOfOpt self.name ++ ".returncode"),
        toString rc ++ "\n")] := by
  simp [RunShellCommand.dump, h1, h2, h3]

/-- C6 amended witness: a concrete executed instance dumps the three expected
files. -/
theorem claim_C6_witness :
    ((((RunShellCommand.init (CommandArg.ofStr "true") (Option.some "w") "/bin/bash"
        Option.none Option.none).run (fun _ => Option.none)
        ⟨"ok", "", 0, [1], 2⟩).1.dump "d").2
      = Except.ok
          [("d/w.o", "ok\n"), ("d/w.e", "\n"), ("d/w.returncode", "0\n")]) := by
  have h := claim_C6_amended
    (((RunShellCommand.init (CommandArg.ofStr "true") (Option.some "w") "/bin/bash"
        Option.none Option.none).run (fun _ => Option.none)
        ⟨"ok", "", 0, [1], 2⟩).1) "d" "ok" "" 0 (by decide) (by decide) (by decide)
  exact h.trans (by decide)

/-- C7: `executed` is false at construction; a completed `run()` is the one
transition to `executed = true`, performed with all captured fields
populated; an aborted `run()` leaves `executed` unchanged; and
`check_status()` and `dump()` return the instance state unmodified. -/
theorem claim_C7 :
    (∀ c n sh vi vo, (RunShellCommand.init c n sh vi vo).executed = false)
    ∧ (∀ (self : RunShellCommand) (fs : FS) (pr : ProcessResult),
        (self.run fs pr).2 = Option.none →
          (self.run fs pr).1.executed = true
          ∧ (self.run fs pr).1.stdout_ = Option.some pr.stdout
          ∧ (self.run fs pr).1.stderr_ = Option.some pr.stderr
          ∧ (self.run fs pr).1.returncode_ = Option.some pr.returncode
          ∧ (self.run fs pr).1.memory_usage_ = Option.some pr.memory_usage
          ∧ (self.run fs pr).1.duration_ = Option.some pr.duration
          ∧ ((self.run fs pr).1.peak_memory_).isSome = true)
    ∧ (∀ (self : RunShellCommand) (fs : FS) (pr : ProcessResult),
        (self.run fs pr).2 ≠ Option.none →
          (self.run fs pr).1.executed = self.executed)
    ∧ (∀ (self : RunShellCommand) (fs : FS), (self.check_status fs).1 = self)
    ∧ (∀ (self : RunShellCommand) (dir : String), (self.dump dir).1 = self) := by
  refine ⟨fun c n sh vi vo => rfl, ?_, ?_, ?_, ?_⟩
  · intro self fs pr h
    cases hcf : checkFiles fs self.validate_input_filepaths with
    | error e => simp [RunShellCommand.run, hcf] at h
    | ok u =>
      cases hmu : pr.memory_usage with
      | nil => simp [RunShellCommand.run, hcf, hmu] at h
      | cons m ms => simp [RunShellCommand.run, hcf, hmu]
  · intro self fs pr h
    cases hcf : checkFiles fs self.validate_input_filepaths with
    | error e => simp [RunShellCommand.run, hcf]
    | ok u =>
      cases hmu : pr.memory_usage with
      | nil => simp [RunShellCommand.run, hcf, hmu]
      | cons m ms => simp [RunShellCommand.run, hcf, hmu] at h
  · intro self fs
    unfold RunShellCommand.check_status
    cases self.returncode_ with
    | none => rfl
    | some rc =>
      by_cases hrc : rc ≠ 0
      · simp [hrc]
      · simp only [hrc]
        cases checkFiles fs self.validate_output_filepaths with
        | error e => simp
        | ok u => simp
  · intro self dir
    unfold RunShellCommand.dump
    cases self.stdout_ with
    | none => rfl
    | some so =>
      cases self.stderr_ with
      | none => rfl
      | some se =>
        cases self.returncode_ with
        | none => rfl
        | some rc => rfl

/-- C7 witness: a freshly constructed instance is not executed; after a
successful concrete `run()` it is. -/
theorem claim_C7_witness :
    (RunShellCommand.init (CommandArg.ofStr "true") Option.none "/bin/bash"
      Option.none Option.none).executed = false
    ∧ ((RunShellCommand.init (CommandArg.ofStr "true") Option.none "/bin/bash"
        Option.none Option.none).run (fun _ => Option.none)
        ⟨"hi", "", 0, [2], 1⟩).1.executed = true :=
  ⟨claim_C7.1 (CommandArg.ofStr "true") Option.none "/bin/bash" Option.none Option.none,
   (claim_C7.2.1 _ _ _ (by decide)).1⟩

/-- C8: `format_bytes` with the default auto unit renders the three example
values as specified, and in general a byte count in the 1024-based interval
`[1024^k, 1024^(k+1))` (for the five units B, KB, MB, GB, TB) is rendered as
the count divided by `1024^k`, to two decimals, with that unit's suffix. -/
theorem claim_C8 :
    format_bytes 0 "auto" true = Except.ok (FBResult.str "0.00 B")
    ∧ format_bytes 1536 "auto" true = Except.ok (FBResult.str "1.50 KB")
    ∧ format_bytes (1024 ^ 3) "auto" true = Except.ok (FBResult.str "1.00 GB")
    ∧ ∀ (B : ℚ) (k : ℕ), k ≤ 4 → (1024 : ℚ) ^ k ≤ B → B < (1024 : ℚ) ^ (k + 1) →
        format_bytes B "auto" true
          = Except.ok (FBResult.str
              (renderFixed2 (B / (1024 : ℚ) ^ k) ++ " " ++ unitNameOfIndex k)) := by
  refine ⟨by decide, by decide, by decide, ?_⟩
  intro B k hk h1 h2
  have hfb : format_bytes B "auto" true = format_bytes_lowered B "auto" true := by
    rw [format_bytes, show pyLower "auto" = "auto" from by decide]
  rw [hfb]
  simp only [format_bytes_lowered]
  rw [if_neg (by decide : ¬("auto" ≠ "auto"))]
  interval_cases k
  · norm_num at h1 h2 ⊢
    rw [if_pos h2]
    simp [format_with_unit, unitNameOfIndex]
  · norm_num at h1 h2 ⊢
    rw [if_neg (not_lt.mpr h1), if_pos ⟨h1, h2⟩]
    simp [format_with_unit, unitNameOfIndex]
  · norm_num at h1 h2 ⊢
    rw [if_neg (by intro hc; linarith), if_neg (by rintro ⟨-, hc⟩; linarith),
        if_pos ⟨h1, h2⟩]
    simp [format_with_unit, unitNameOfIndex]
  · norm_num at h1 h2 ⊢
    rw [if_neg (by intro hc; linarith), if_neg (by rintro ⟨-, hc⟩; linarith),
        if_neg (by rintro ⟨-, hc⟩; linarith), if_pos ⟨h1, h2⟩]
    simp [format_with_unit, unitNameOfIndex]
  · norm_num at h1 h2 ⊢
    rw [if_neg (by intro hc; linarith), if_neg (by rintro ⟨-, hc⟩; linarith),
        if_neg (by rintro ⟨-, hc⟩; linarith), if_neg (by rintro ⟨-, hc⟩; linarith)]
    simp [format_with_unit, unitNameOfIndex]

/-- C8 witness: 2048 bytes fall in the KB interval and render as
`"2.00 KB"`. -/
theorem claim_C8_witness :
    format_bytes 2048 "auto" true = Except.ok (FBResult.str "2.00 KB") := by
  have h := claim_C8.2.2.2 2048 1 (by norm_num) (by norm_num) (by norm_num)
  exact h.trans (by decide)

/-- C9: `format_duration` renders the two example durations as specified,
and in general renders a nonnegative duration as zero-padded `HH:MM:SS`
where the minutes and seconds components are each below 60 and the
components decompose the truncated duration. -/
theorem claim_C9 :
    format_duration 65 = "00:01:05"
    ∧ format_duration 3661 = "01:01:01"
    ∧ ∀ d : ℚ, 0 ≤ d → ∃ h m s : ℤ,
        0 ≤ h ∧ 0 ≤ m ∧ m < 60 ∧ 0 ≤ s ∧ s < 60
        ∧ pyint d = h * 3600 + m * 60 + s
        ∧ format_duration d = padInt2 h ++ ":" ++ padInt2 m ++ ":" ++ padInt2 s := by
  refine ⟨by decide, by decide, ?_⟩
  intro d hd
  have hn : 0 ≤ pyint d := by
    unfold pyint
    rw [if_neg (not_lt.mpr hd)]
    exact Int.natCast_nonneg _
  refine ⟨pyint d / 3600, pyint d % 3600 / 60, pyint d % 3600 % 60,
          ?_, ?_, ?_, ?_, ?_, ?_, rfl⟩
  · omega
  · omega
  · omega
  · omega
  · omega
  · omega

/-- C9 witness: 7322 seconds render as two hours, two minutes, two seconds. -/
theorem claim_C9_witness :
    (0 : ℚ) ≤ 7322 ∧ format_duration 7322 = "02:02:02"
    ∧ ∃ h m s : ℤ,
        0 ≤ h ∧ 0 ≤ m ∧ m < 60 ∧ 0 ≤ s ∧ s < 60
        ∧ pyint 7322 = h * 3600 + m * 60 + s
        ∧ format_duration 7322 = padInt2 h ++ ":" ++ padInt2 m ++ ":" ++ padInt2 s :=
  ⟨by norm_num, by decide, claim_C9.2.2 7322 (by norm_num)⟩

/-- C10: `format_bytes` raises an error exactly when the lowercased unit
argument is none of `b`, `kb`, `mb`, `gb`, `tb`, `auto`, and the error raised
then is precisely the `ValueError` carrying `"Unknown unit: "` and the
lowercased unit; for a recognized explicit unit it returns the byte count
divided by that unit's 1024-based factor, with no constraint on the byte
count's magnitude. -/
theorem claim_C10 (B : ℚ) (u : String) (ru : Bool) :
    ((∃ e, format_bytes B u ru = Except.error e) ↔
      pyLower u ∉ (["b", "kb", "mb", "gb", "tb", "auto"] : List String))
    ∧ (format_bytes B u ru
        = Except.error (PyError.valueError ("Unknown unit: " ++ pyLower u)) ↔
      pyLower u ∉ (["b", "kb", "mb", "gb", "tb", "auto"] : List String))
    ∧ (∀ f, unitFactor (pyLower u) = Option.some f →
        format_bytes B u false = Except.ok (FBResult.num (B / f))) := by
  have hfb : ∀ ru' : Bool, format_bytes B u ru' = format_bytes_lowered B (pyLower u) ru' :=
    fun _ => rfl
  by_cases hauto : pyLower u = "auto"
  · have hnoerr : ∀ e, ¬(format_bytes B u ru = Except.error e) := by
      intro e he
      rw [hfb ru, hauto] at he
      simp only [format_bytes_lowered] at he
      rw [if_neg (by decide : ¬("auto" ≠ "auto"))] at he
      split_ifs at he
    have hmem : ¬(pyLower u ∉ (["b", "kb", "mb", "gb", "tb", "auto"] : List String)) := by
      rw [hauto]; decide
    refine ⟨iff_of_false ?_ hmem, iff_of_false (hnoerr _) hmem, ?_⟩
    · rintro ⟨e, he⟩
      exact hnoerr e he
    · intro f hf
      rw [hauto, show unitFactor "auto" = Option.none from rfl] at hf
      exact Option.noConfusion hf
  · by_cases hb : pyLower u = "b"
    · have hok : ∀ ru' : Bool, format_bytes B u ru'
          = Except.ok (format_with_unit ru' B "B") := by
        intro ru'
        rw [hfb ru', hb]
        rfl
      have hmem : ¬(pyLower u ∉ (["b", "kb", "mb", "gb", "tb", "auto"] : List String)) := by
        rw [hb]; decide
      refine ⟨iff_of_false ?_ hmem, iff_of_false ?_ hmem, ?_⟩
      · rintro ⟨e, he⟩
        rw [hok ru] at he
        exact Except.noConfusion he
      · intro he
        rw [hok ru] at he
        exact Except.noConfusion he
      · intro f hf
        rw [hb, show unitFactor "b" = Option.some 1 from rfl] at hf
        rw [← Option.some.inj hf, div_one, hok false]
        rfl
    · by_cases hkb : pyLower u = "kb"
      · have hok : ∀ ru' : Bool, format_bytes B u ru'
            = Except.ok (format_with_unit ru' (B / 1024) "KB") := by
          intro ru'
          rw [hfb ru', hkb]
          rfl
        have hmem : ¬(pyLower u ∉ (["b", "kb", "mb", "gb", "tb", "auto"] : List String)) := by
          rw [hkb]; decide
        refine ⟨iff_of_false ?_ hmem, iff_of_false ?_ hmem, ?_⟩
        · rintro ⟨e, he⟩
          rw [hok ru] at he
          exact Except.noConfusion he
        · intro he
          rw [hok ru] at he
          exact Except.noConfusion he
        · intro f hf
          rw [hkb, show unitFactor "kb" = Option.some 1024 from rfl] at hf
          rw [← Option.some.inj hf, hok false]
          rfl
      · by_cases hmb : pyLower u = "mb"
        · have hok : ∀ ru' : Bool, format_bytes B u ru'
              = Except.ok (format_with_unit ru' (B / 1024 ^ 2) "MB") := by
            intro ru'
            rw [hfb ru', hmb]
            rfl
          have hmem : ¬(pyLower u ∉ (["b", "kb", "mb", "gb", "tb", "auto"] : List String)) := by
            rw [hmb]; decide
          refine ⟨iff_of_false ?_ hmem, iff_of_false ?_ hmem, ?_⟩
          · rintro ⟨e, he⟩
            rw [hok ru] at he
            exact Except.noConfusion he
          · intro he
            rw [hok ru] at he
            exact Except.noConfusion he
          · intro f hf
            rw [hmb, show unitFactor "mb" = Option.some (1024 ^ 2) from rfl] at hf
            rw [← Option.some.inj hf, hok false]
            rfl
        · by_cases hgb : pyLower u = "gb"
          · have hok : ∀ ru' : Bool, format_bytes B u ru'
                = Except.ok (format_with_unit ru' (B / 1024 ^ 3) "GB") := by
              intro ru'
              rw [hfb ru', hgb]
              rfl
            have hmem : ¬(pyLower u ∉ (["b", "kb", "mb", "gb", "tb", "auto"] : List String)) := by
              rw [hgb]; decide
            refine ⟨iff_of_false ?_ hmem, iff_of_false ?_ hmem, ?_⟩
            · rintro ⟨e, he⟩
              rw [hok ru] at he
              exact Except.noConfusion he
            · intro he
              rw [hok ru] at he
              exact Except.noConfusion he
            · intro f hf
              rw [hgb, show unitFactor "gb" = Option.some (1024 ^ 3) from rfl] at hf
              rw [← Option.some.inj hf, hok false]
              rfl
          · by_cases htb : pyLower u = "tb"
            · have hok : ∀ ru' : Bool, format_bytes B u ru'
                  = Except.ok (format_with_unit ru' (B / 1024 ^ 4) "TB") := by
                intro ru'
                rw [hfb ru', htb]
                rfl
              have hmem : ¬(pyLower u ∉ (["b", "kb", "mb", "gb", "tb", "auto"] : List String)) := by
                rw [htb]; decide
              refine ⟨iff_of_false ?_ hmem, iff_of_false ?_ hmem, ?_⟩
              · rintro ⟨e, he⟩
                rw [hok ru] at he
                exact Except.noConfusion he
              · intro he
                rw [hok ru] at he
                exact Except.noConfusion he
              · intro f hf
                rw [htb, show unitFactor "tb" = Option.some (1024 ^ 4) from rfl] at hf
                rw [← Option.some.inj hf, hok false]
                rfl
            · have herr : ∀ ru' : Bool, format_bytes B u ru'
                  = Except.error (PyError.valueError ("Unknown unit: " ++ pyLower u)) := by
                intro ru'
                rw [hfb ru']
                simp only [format_bytes_lowered]
                rw [if_pos hauto, if_neg hb, if_neg hkb, if_neg hmb, if_neg hgb,
                    if_neg htb]
              have hmem : pyLower u ∉ (["b", "kb", "mb", "gb", "tb", "auto"] : List String) := by
                simp [hb, hkb, hmb, hgb, htb, hauto]
              refine ⟨iff_of_true ⟨_, herr ru⟩ hmem, iff_of_true (herr ru) hmem, ?_⟩
              · intro f hf
                unfold unitFactor at hf
                rw [if_neg hb, if_neg hkb, if_neg hmb, if_neg hgb, if_neg htb] at hf
                exact Option.noConfusion hf

/-- C10 witness: the explicit unit `"MB"` (case-insensitive) is recognized
with factor `1024 ^ 2` and 3 bytes render as that quotient, while the
unrecognized unit `"zb"` raises exactly the `ValueError` with the
`"Unknown unit: zb"` message. -/
theorem claim_C10_witness :
    (unitFactor (pyLower "MB") = Option.some ((1024 : ℚ) ^ 2)
      ∧ format_bytes 3 "MB" false = Except.ok (FBResult.num (3 / (1024 : ℚ) ^ 2)))
    ∧ format_bytes 1 "zb" true
        = Except.error (PyError.valueError "Unknown unit: zb") :=
  ⟨⟨by decide, (claim_C10 3 "MB" false).2.2 ((1024 : ℚ) ^ 2) (by decide)⟩,
   ((claim_C10 1 "zb" true).2.1.mpr (by decide)).trans (by decide)⟩

end RatEval
